import Mathlib

/-!
Verification development for `uniter/phptest` (`src/createIntegrationTools.js`).

The file shallowly embeds the two algorithmic cores of the library — the
forced-async opcode interceptor (`AsyncOpcodeExecutor.prototype.execute`,
source lines 156-207) and the stack-trace normaliser (`normaliseStack`,
source lines 270-320) — together with the tools-construction logic
(lines 219-234), and proves the spec's claims about them.

Scheduling is the single-threaded cooperative model of the spec (§5):
"asynchronous" means deferred onto a later tick of one logical queue.  We
model ticks as natural numbers.  External collaborators (the PHPCore
future/value/reference factories and the runtime factory) are not part of
this repository; the definitions embedding them are modelled from the
spec's contracts for them (§4.2, §6) and are marked as such.
-/

/-- Outcome of a computation: a resolved value or a raised error.
Embeds the "value/error" payload a settled future carries. -/
inductive Outcome (α : Type) where
  | value (v : α)
  | error (e : String)
deriving DecidableEq

/-- Shallow embedding of a PHPCore Future / FutureValue (a deferred-value
handle): the tick it was created on, the tick its continuations run on, and
the value/error it delivers.  External collaborator, modelled from the
spec: "a value representing a computation that may not yet be complete". -/
structure Future (α : Type) where
  createdAtTick : Nat
  resolvesAtTick : Nat
  payload : Outcome α
deriving DecidableEq

/-- Embeds `result.isSettled()` at the current tick `t`: the future has
already delivered its payload by tick `t`. -/
def Future.isSettled {α : Type} (f : Future α) (t : Nat) : Bool :=
  f.resolvesAtTick ≤ t

/-- External collaborator contract, modelled from the spec:
`futureFactory.createAsyncPresent(x)` / `valueFactory.createAsyncPresent(x)`
build a fresh deferred handle created at the current tick `t` that carries
the already-known outcome but only resolves on a later scheduling tick
(after the current synchronous call stack unwinds); we take the next
tick `t + 1`. -/
def createAsyncPresent {α : Type} (t : Nat) (p : Outcome α) : Future α :=
  { createdAtTick := t, resolvesAtTick := t + 1, payload := p }

/-- External collaborator contract, modelled from the spec:
`valueFactory.createAsyncMicrotaskFuture(executor)` runs its executor in a
microtask, i.e. on a later tick of the same queue, and settles with the
outcome the executor's chained computation produces. -/
def createAsyncMicrotaskFuture {α : Type} (t : Nat) (p : Outcome α) : Future α :=
  { createdAtTick := t, resolvesAtTick := t + 1, payload := p }

/-- Shallow embedding of a PHPCore reference-like handle (a `Reference` or a
`Variable`, source lines 34-36): the observations each of its operations
yields when invoked on it.  The JS methods `setValue`, `unset`,
`setReference` and `clearReference` also mutate the underlying storage; we
model each call by the observation it produces on the raw handle (an opaque
`Nat` token for the mutators, the eventual `Outcome` for `setValue`), so
that proxying a capability to the original can be stated as equality of
observations. -/
structure RefHandle (α : Type) where
  getValue : α
  setValue : α → Outcome α
  unset : Nat
  getReference : Nat
  setReference : Nat → Nat
  clearReference : Nat
  isDefined : Bool
  isReadable : Bool
  isEmpty : Bool
  isSet : Bool
  isReference : Bool
  raiseUndefined : α

/-- Shallow embedding of the accessor built by
`referenceFactory.createAccessor(...)` from the twelve callbacks passed at
source lines 175-203, in source order.  A capability that the source wraps
in a future takes the tick `u` at which it is invoked and returns the
future created then; a capability the source leaves as a synchronous
passthrough is a plain (tick-independent) value or function. -/
structure Accessor (α : Type) where
  valueGetter : Nat → Future α
  valueSetter : Nat → α → Future α
  unsetter : Nat → Future Nat
  referenceGetter : Nat
  referenceSetter : Nat → Nat
  referenceClearer : Nat
  definednessGetter : Bool
  readabilityGetter : Bool
  emptinessGetter : Nat → Future Bool
  setnessGetter : Nat → Future Bool
  referencenessGetter : Bool
  undefinedRaiser : Nat → Future α

/-- Embeds source lines 175-203: the accessor the decorated executor builds
for a reference-like raw result `r`.  Value-producing and mutating
capabilities are wrapped via `createAsyncPresent` /
`createAsyncMicrotaskFuture` at their invocation tick; the structural
capabilities (get/set/clear referenced target, is-reference check) and the
defined/readable checks call straight through to `r`. -/
def createAccessorFor {α : Type} (r : RefHandle α) : Accessor α where
  valueGetter := fun u => createAsyncPresent u (Outcome.value r.getValue)
  valueSetter := fun u v => createAsyncMicrotaskFuture u (r.setValue v)
  unsetter := fun u => createAsyncPresent u (Outcome.value r.unset)
  referenceGetter := r.getReference
  referenceSetter := fun target => r.setReference target
  referenceClearer := r.clearReference
  definednessGetter := r.isDefined
  readabilityGetter := r.isReadable
  emptinessGetter := fun u => createAsyncPresent u (Outcome.value r.isEmpty)
  setnessGetter := fun u => createAsyncPresent u (Outcome.value r.isSet)
  referencenessGetter := r.isReference
  undefinedRaiser := fun u => createAsyncPresent u (Outcome.value r.raiseUndefined)

/-- The disjoint shapes a raw opcode result can take (spec §3, "Execution
result shapes"): a future (`controlBridge.isFuture`), a plain `Value`, a
`Reference`, a `Variable`, or anything else.  `other` carries an opaque
tag standing for the arbitrary JS value. -/
inductive OpcodeResult (α : Type) where
  | future (f : Future α)
  | value (v : α)
  | ref (r : RefHandle α)
  | var (r : RefHandle α)
  | other (tag : Nat)

/-- Embeds an opcode as the decorated executor observes it: its traced flag
(`opcode.isTraced()`) and the raw result `opcode.handle()` produces. -/
structure Opcode (α : Type) where
  isTraced : Bool
  handle : OpcodeResult α

/-- What `AsyncOpcodeExecutor.prototype.execute` returns, distinguishing an
untouched raw result (identity return of the very object produced by
`opcode.handle()`) from each of the wrappings the source can apply:
`futureFactory.createAsyncPresent(result)` (line 167),
`valueFactory.createAsyncPresent(result)` (line 171), or the accessor
(lines 175-203). -/
inductive ExecuteResult (α : Type) where
  | raw (result : OpcodeResult α)
  | wrappedFuture (f : Future α)
  | wrappedValue (f : Future α)
  | accessor (a : Accessor α)

/-- Embeds `AsyncOpcodeExecutor.prototype.execute` (source lines 156-207)
at current tick `t`.  An untraced opcode's result is returned unchanged
(lines 159-163); a settled future is rewrapped in a deferring one
(lines 165-168); a plain value is wrapped in an async present
(lines 170-172); a reference-like result becomes the accessor
(lines 174-204); anything else — including a future that is not yet
settled, which falls through every branch — is returned unchanged
(line 206). -/
def AsyncOpcodeExecutor.execute {α : Type} (t : Nat) (opcode : Opcode α) :
    ExecuteResult α :=
  let result := opcode.handle
  if !opcode.isTraced then
    ExecuteResult.raw result
  else
    match result with
    | OpcodeResult.future f =>
        if f.isSettled t then
          ExecuteResult.wrappedFuture (createAsyncPresent t f.payload)
        else
          ExecuteResult.raw result
    | OpcodeResult.value v =>
        ExecuteResult.wrappedValue (createAsyncPresent t (Outcome.value v))
    | OpcodeResult.ref r => ExecuteResult.accessor (createAccessorFor r)
    | OpcodeResult.var r => ExecuteResult.accessor (createAccessorFor r)
    | OpcodeResult.other _ => ExecuteResult.raw result

/-- Classification of one line of stack-trace text by which of
`normaliseStack`'s patterns it matches (source lines 284-316).  The
constructors carry the captured pieces the replacements reuse.  A line
matches at most one pattern in practice, which the disjoint constructors
make explicit; `plain` lines match none of them (in particular their text
does not contain the rewritten placeholder paths, the Mocha installation
path, a platform-internal module reference, or the resolved PHPCore
path). -/
inductive LineContent where
  /-- A frame matching the transpiled-PHP eval pattern (line 287), with the
  text before the match and the captured generated line/column. -/
  | transpiled (pre : String) (genLine genColumn : Nat)
  /-- A frame whose path lies under the Mocha installation path
  (line 306): `pre` and `mid` are the two captured groups around it. -/
  | mochaFrame (pre mid : String)
  /-- The rewritten form of a Mocha frame, containing the placeholder path
  `/path/to/mocha` (output of line 306, input of line 308). -/
  | mochaNormalised (pre mid : String)
  /-- A frame in the platform's internal modules, in either of the two
  forms the pattern at line 311 tolerates. -/
  | nodeInternalFrame (pre mid : String)
  /-- The rewritten form of a platform-internal frame, containing the
  placeholder path `/path/to/internal` (output of line 311, input of
  line 313). -/
  | nodeNormalised (pre mid : String)
  /-- A frame containing the resolved PHPCore installation path
  (line 316), with the text around it. -/
  | phpCoreFrame (pre post : String)
  /-- The rewritten form of a PHPCore frame, with the path replaced by
  `/path/to/phpcore`. -/
  | phpCoreNormalised (pre post : String)
  /-- Any other line, kept verbatim. -/
  | plain (text : String)
deriving DecidableEq

/-- One line of stack text: its content together with the run of
line-ending characters (`[\r\n]*`) that follows it.  A stack is a list of
such lines. -/
structure Line where
  content : LineContent
  ending : String
deriving DecidableEq

/-- The registry entry stored per module at transpile time (source
line 124): the source-map data and the module path.  `originalPositionFor`
embeds `new SourceMapConsumer(moduleData.sourceMapGenerator)
.originalPositionFor(\x7bline, column\x7d)` (external collaborator, spec §6):
`none` models the all-null result the decoder returns when the position is
unmappable, otherwise the original (source, line, column). -/
structure ModuleData where
  originalPositionFor : Nat → Nat → Option (String × Nat × Nat)
  path : Option String

/-- A module handle is only ever used as an identity key into the registry;
we model it by an opaque id. -/
abbrev ModuleHandle := Nat

/-- The error message thrown at source lines 274-277 when the module has no
registry entry. -/
def missingSourceMapMessage : String :=
  "Test harness error: module data map does not contain data for this module - did you forget to set options.sourceMap?"

/-- The error message thrown at source line 298 when a transpiled frame has
no original position. -/
def unmappableFrameMessage : String :=
  "Stack line in evaluated PHP code could not be mapped back to PHP source"

/-- Embeds the replacer at source lines 288-302 applied to one line: a
transpiled-PHP frame has its generated line adjusted by
`errorStackLineOffset`, is resolved through the source map, and is
substituted by `(source:line:column)`; resolution failure throws.  Lines
matching no transpiled frame are left alone. -/
def mapTranspiledLine (originalPositionFor : Nat → Nat → Option (String × Nat × Nat))
    (errorStackLineOffset : Nat) (l : Line) : Except String Line :=
  match l.content with
  | LineContent.transpiled pre genLine genColumn =>
      match originalPositionFor (genLine - errorStackLineOffset) genColumn with
      | none => Except.error unmappableFrameMessage
      | some (src, origLine, origColumn) =>
          Except.ok
            ⟨LineContent.plain
              (pre ++ "(" ++ src ++ ":" ++ toString origLine ++ ":" ++ toString origColumn ++ ")"),
             l.ending⟩
  | _ => Except.ok l

/-- Embeds `stack.replace(<transpiled-frame pattern>, <throwing replacer>)`
(source lines 284-303) over the whole stack: every matching frame is
substituted, and a throw from the replacer aborts the whole replacement
with that error, producing no output string. -/
def mapTranspiledLines (originalPositionFor : Nat → Nat → Option (String × Nat × Nat))
    (errorStackLineOffset : Nat) : List Line → Except String (List Line)
  | [] => Except.ok []
  | l :: rest =>
      match mapTranspiledLine originalPositionFor errorStackLineOffset l with
      | Except.error e => Except.error e
      | Except.ok l2 =>
          match mapTranspiledLines originalPositionFor errorStackLineOffset rest with
          | Except.error e => Except.error e
          | Except.ok rest2 => Except.ok (l2 :: rest2)

/-- Embeds the rewrite at source line 306: a frame under the Mocha
installation path becomes `$1/path/to/mocha$2??:??`, keeping both captured
groups; other lines are untouched. -/
def normaliseMochaLine (l : Line) : Line :=
  match l.content with
  | LineContent.mochaFrame pre mid => ⟨LineContent.mochaNormalised pre mid, l.ending⟩
  | _ => l

/-- Tests whether a line contains the rewritten placeholder path
`/path/to/mocha`, i.e. matches `.*\/path\/to\/mocha.*` at source
line 308. -/
def isMochaNormalised (l : Line) : Bool :=
  match l.content with
  | LineContent.mochaNormalised _ _ => true
  | _ => false

/-- Embeds the rewrite at source line 311: a platform-internal frame
becomes its `/path/to/internal/...` placeholder form; other lines are
untouched. -/
def normaliseNodeLine (l : Line) : Line :=
  match l.content with
  | LineContent.nodeInternalFrame pre mid => ⟨LineContent.nodeNormalised pre mid, l.ending⟩
  | _ => l

/-- Tests whether a line contains the rewritten placeholder path
`/path/to/internal`, i.e. matches `.*\/path\/to\/internal.*` at source
line 313. -/
def isNodeNormalised (l : Line) : Bool :=
  match l.content with
  | LineContent.nodeNormalised _ _ => true
  | _ => false

/-- Embeds the rewrite at source line 316: every occurrence of the resolved
PHPCore installation path becomes `/path/to/phpcore`, line/column kept. -/
def normalisePhpCoreLine (l : Line) : Line :=
  match l.content with
  | LineContent.phpCoreFrame pre post => ⟨LineContent.phpCoreNormalised pre post, l.ending⟩
  | _ => l

/-- The marker line the Mocha-frame grouping at source line 308 substitutes
for a run of rewritten Mocha frames. -/
def mochaMarkerText : String := "    at [Mocha internals]"

/-- The marker line the platform-internal grouping at source line 313
substitutes for a run of rewritten internal frames. -/
def nodeMarkerText : String := "    at [Node.js internals]"

/-- Embeds the grouping regexes at source lines 308 and 313: each maximal
consecutive run of lines satisfying `isRun` is replaced by the single
`marker` line, which keeps the line-ending characters captured on the last
line of the run (the regex's `$1` is the final iteration's `([\r\n]*)`
capture). -/
def collapseRuns (isRun : Line → Bool) (marker : LineContent) : List Line → List Line
  | [] => []
  | [l] => if isRun l then [⟨marker, l.ending⟩] else [l]
  | l1 :: l2 :: rest =>
      if isRun l1 then
        if isRun l2 then
          collapseRuns isRun marker (l2 :: rest)
        else
          ⟨marker, l1.ending⟩ :: collapseRuns isRun marker (l2 :: rest)
      else
        l1 :: collapseRuns isRun marker (l2 :: rest)

/-- Embeds `normaliseStack` (source lines 270-320).  The module handle is
looked up in the registry: a missing entry throws the configuration error
before any processing (lines 273-278).  Otherwise the stack goes through
the pipeline in source order: source mapping of transpiled frames with a
fatal error on any unmappable frame (lines 284-303), Mocha frame rewrite
then grouping (lines 306-308), platform-internal frame rewrite then
grouping (lines 311-313), and PHPCore path rewrite (line 316).  The
deferred-result channel is embedded as `Except`: an error produces no
normalized output at all. -/
def normaliseStack (moduleDataMap : ModuleHandle → Option ModuleData)
    (errorStackLineOffset : Nat) (stack : List Line) (moduleHandle : ModuleHandle) :
    Except String (List Line) :=
  match moduleDataMap moduleHandle with
  | none => Except.error missingSourceMapMessage
  | some moduleData =>
      match mapTranspiledLines moduleData.originalPositionFor errorStackLineOffset stack with
      | Except.error e => Except.error e
      | Except.ok mapped =>
          Except.ok
            (((collapseRuns isNodeNormalised (LineContent.plain nodeMarkerText)
                ((collapseRuns isMochaNormalised (LineContent.plain mochaMarkerText)
                  (mapped.map normaliseMochaLine)).map normaliseNodeLine)).map
              normalisePhpCoreLine))

/-- The three execution modes passed to `runtimeFactory.create` (source
lines 54-65). -/
inductive Mode where
  | sync
  | async
  | psync
deriving DecidableEq

/-- A runtime instance, identified for purposes of reference equality by
its mode and a creation serial number. -/
abbrev Runtime := Mode × Nat

/-- External collaborator contract, modelled from the spec (§6):
`runtimeFactory.create(mode)` constructs a fresh runtime instance on every
call.  Identity is embedded by threading a creation counter: the call
returns the runtime stamped with the current counter and the incremented
counter. -/
def runtimeFactoryCreate (mode : Mode) (counter : Nat) : Runtime × Nat :=
  ((mode, counter), counter + 1)

/-- Embeds `createRuntime` (source lines 48-52): create a runtime of the
given mode via the factory and, when a caller-supplied `initRuntime` hook
was given, return whatever the hook returns for it. -/
def createRuntime (initRuntime : Option (Runtime → Runtime)) (mode : Mode)
    (counter : Nat) : Runtime × Nat :=
  let created := runtimeFactoryCreate mode counter
  (match initRuntime with
   | some hook => hook created.1
   | none => created.1,
   created.2)

/-- The tools object returned by `createIntegrationTools` (source
lines 236-337), restricted to the runtime-management surface the claims
are about: the three stored runtime properties, the three explicit
fresh-runtime creation operations (each still threading the creation
counter), and which runtime, if any, the forced-async opcode hook was
installed on during construction (source lines 232-234). -/
structure Tools where
  asyncRuntime : Runtime
  psyncRuntime : Runtime
  syncRuntime : Runtime
  createAsyncRuntime : Nat → Runtime × Nat
  createPsyncRuntime : Nat → Runtime × Nat
  createSyncRuntime : Nat → Runtime × Nat
  hookInstalledOn : Option Runtime

/-- Embeds the construction of the tools object (source lines 30-234,
runtime-management surface).  The three shared runtimes are created
eagerly, in source order async, psync, sync (lines 219-221), threading the
creation counter; the forced-async opcode hook is installed on the stored
async runtime unless `forceOpcodesAsync` is the value `false`
(`forceOpcodesAsync !== false`, line 232), where `none` embeds an omitted
argument.  Returns the tools together with the counter after
construction. -/
def createIntegrationTools (initRuntime : Option (Runtime → Runtime))
    (forceOpcodesAsync : Option Bool) (counter : Nat) : Tools × Nat :=
  let ar := createRuntime initRuntime Mode.async counter
  let pr := createRuntime initRuntime Mode.psync ar.2
  let sr := createRuntime initRuntime Mode.sync pr.2
  ({ asyncRuntime := ar.1
   , psyncRuntime := pr.1
   , syncRuntime := sr.1
   , createAsyncRuntime := createRuntime initRuntime Mode.async
   , createPsyncRuntime := createRuntime initRuntime Mode.psync
   , createSyncRuntime := createRuntime initRuntime Mode.sync
   , hookInstalledOn := if forceOpcodesAsync ≠ some false then some ar.1 else none },
   sr.2)

/-- C1: for every traced opcode whose raw result is a future that is
already settled, the decorated executor returns a freshly created deferred
value (distinct from the original) that carries the identical value/error
payload, is created at the current tick, and resolves only on a strictly
later tick — never within the tick it was created in. -/
theorem execute_settled_future_rewrapped_deferred (α : Type) (t : Nat) (f : Future α)
    (hs : f.isSettled t = true) :
    ∃ g : Future α,
      AsyncOpcodeExecutor.execute t ⟨true, OpcodeResult.future f⟩ =
        ExecuteResult.wrappedFuture g ∧
      g.payload = f.payload ∧
      g ≠ f ∧
      g.createdAtTick = t ∧
      g.createdAtTick < g.resolvesAtTick := by
  refine ⟨createAsyncPresent t f.payload, ?_, rfl, ?_, rfl, Nat.lt_succ_self t⟩
  · simp [AsyncOpcodeExecutor.execute, hs]
  · intro hgf
    have h1 : t + 1 = f.resolvesAtTick := congrArg Future.resolvesAtTick hgf
    have hle : f.resolvesAtTick ≤ t := by simpa [Future.isSettled] using hs
    omega

/-- Witness for `execute_settled_future_rewrapped_deferred` at a concrete
settled future. -/
theorem execute_settled_future_rewrapped_deferred_witness :
    (Future.mk 0 2 (Outcome.value 7)).isSettled 5 = true ∧
    ∃ g : Future Nat,
      AsyncOpcodeExecutor.execute 5
          ⟨true, OpcodeResult.future (Future.mk 0 2 (Outcome.value 7))⟩ =
        ExecuteResult.wrappedFuture g ∧
      g.payload = (Future.mk 0 2 (Outcome.value 7)).payload ∧
      g ≠ Future.mk 0 2 (Outcome.value 7) ∧
      g.createdAtTick = 5 ∧
      g.createdAtTick < g.resolvesAtTick :=
  ⟨by decide, execute_settled_future_rewrapped_deferred Nat 5 _ (by decide)⟩

/-- C3: for every opcode that is not flagged as traced, the decorated
executor returns exactly the raw result produced by the wrapped executor,
unchanged and undeferred. -/
theorem execute_untraced_identity (α : Type) (t : Nat) (result : OpcodeResult α) :
    AsyncOpcodeExecutor.execute t ⟨false, result⟩ = ExecuteResult.raw result :=
  rfl

/-- C10: for a traced opcode whose raw result is a future that is not yet
settled, and for a traced opcode whose result is none of future, plain
value, or reference-like handle, the decorated executor returns the raw
result unchanged, with no rewrapping or deferral. -/
theorem execute_unsettled_future_and_other_identity (α : Type) (t : Nat) (f : Future α)
    (hs : f.isSettled t = false) (tag : Nat) :
    AsyncOpcodeExecutor.execute t ⟨true, OpcodeResult.future f⟩ =
      ExecuteResult.raw (OpcodeResult.future f) ∧
    AsyncOpcodeExecutor.execute t ⟨true, (OpcodeResult.other tag : OpcodeResult α)⟩ =
      ExecuteResult.raw (OpcodeResult.other tag) := by
  refine ⟨?_, rfl⟩
  simp [AsyncOpcodeExecutor.execute, hs]

/-- Witness for `execute_unsettled_future_and_other_identity` at a concrete
unsettled future. -/
theorem execute_unsettled_future_and_other_identity_witness :
    (Future.mk 1 9 (Outcome.value 4)).isSettled 3 = false ∧
    (AsyncOpcodeExecutor.execute 3
        ⟨true, OpcodeResult.future (Future.mk 1 9 (Outcome.value 4))⟩ =
      ExecuteResult.raw (OpcodeResult.future (Future.mk 1 9 (Outcome.value 4))) ∧
    AsyncOpcodeExecutor.execute 3 ⟨true, OpcodeResult.other 11⟩ =
      ExecuteResult.raw (OpcodeResult.other (α := Nat) 11)) :=
  ⟨by decide, execute_unsettled_future_and_other_identity Nat 3 _ (by decide) 11⟩

/-- C2: for every traced opcode whose raw result is a reference-like handle
(a reference or a variable), the decorated executor returns an accessor on
which every structural capability (get/set/clear referenced target,
is-reference check) is a synchronous passthrough returning the same data as
the raw handle — embedded by those capabilities being plain,
tick-independent values equal to the raw handle's observations — while every
value-producing/mutating capability (get value, set value, unset), invoked
at any tick `u`, completes only on a strictly later tick, delivering the
raw handle's data. -/
theorem execute_refLike_structural_sync_value_deferred (α : Type) (t : Nat)
    (r : RefHandle α) :
    ∃ a : Accessor α,
      AsyncOpcodeExecutor.execute t ⟨true, OpcodeResult.ref r⟩ = ExecuteResult.accessor a ∧
      AsyncOpcodeExecutor.execute t ⟨true, OpcodeResult.var r⟩ = ExecuteResult.accessor a ∧
      a.referenceGetter = r.getReference ∧
      (∀ target, a.referenceSetter target = r.setReference target) ∧
      a.referenceClearer = r.clearReference ∧
      a.referencenessGetter = r.isReference ∧
      (∀ u, u < (a.valueGetter u).resolvesAtTick ∧
        (a.valueGetter u).payload = Outcome.value r.getValue) ∧
      (∀ u v, u < (a.valueSetter u v).resolvesAtTick ∧
        (a.valueSetter u v).payload = r.setValue v) ∧
      (∀ u, u < (a.unsetter u).resolvesAtTick ∧
        (a.unsetter u).payload = Outcome.value r.unset) :=
  ⟨createAccessorFor r, rfl, rfl, rfl, fun _ => rfl, rfl, rfl,
    fun u => ⟨Nat.lt_succ_self u, rfl⟩,
    fun u _ => ⟨Nat.lt_succ_self u, rfl⟩,
    fun u => ⟨Nat.lt_succ_self u, rfl⟩⟩

/-- C9: on the accessor produced for a reference-like raw result, the
defined-check and readable-check capabilities are synchronous passthroughs
returning the raw handle's answer, whereas the empty-check, set-check and
raise-undefined capabilities, invoked at any tick `u`, complete only on a
strictly later tick, delivering the raw handle's data. -/
theorem execute_refLike_check_capability_split (α : Type) (t : Nat) (r : RefHandle α) :
    ∃ a : Accessor α,
      AsyncOpcodeExecutor.execute t ⟨true, OpcodeResult.ref r⟩ = ExecuteResult.accessor a ∧
      AsyncOpcodeExecutor.execute t ⟨true, OpcodeResult.var r⟩ = ExecuteResult.accessor a ∧
      a.definednessGetter = r.isDefined ∧
      a.readabilityGetter = r.isReadable ∧
      (∀ u, u < (a.emptinessGetter u).resolvesAtTick ∧
        (a.emptinessGetter u).payload = Outcome.value r.isEmpty) ∧
      (∀ u, u < (a.setnessGetter u).resolvesAtTick ∧
        (a.setnessGetter u).payload = Outcome.value r.isSet) ∧
      (∀ u, u < (a.undefinedRaiser u).resolvesAtTick ∧
        (a.undefinedRaiser u).payload = Outcome.value r.raiseUndefined) :=
  ⟨createAccessorFor r, rfl, rfl, rfl, rfl,
    fun u => ⟨Nat.lt_succ_self u, rfl⟩,
    fun u => ⟨Nat.lt_succ_self u, rfl⟩,
    fun u => ⟨Nat.lt_succ_self u, rfl⟩⟩

/-- Any error the per-line source-mapping step produces is the unmappable
frame message thrown at source line 298: that throw is the only failure in
the replacer. -/
theorem mapTranspiledLine_error_msg (opf : Nat → Nat → Option (String × Nat × Nat))
    (off : Nat) (l : Line) (e : String)
    (h : mapTranspiledLine opf off l = Except.error e) : e = unmappableFrameMessage := by
  obtain ⟨content, ending⟩ := l
  cases content
  case transpiled pre gl gc =>
    cases hm : opf (gl - off) gc with
    | none =>
        simp [mapTranspiledLine, hm] at h
        first
        | exact h
        | exact h.symm
    | some p =>
        obtain ⟨src, ol, oc⟩ := p
        simp [mapTranspiledLine, hm] at h
  all_goals simp [mapTranspiledLine] at h

/-- A stack containing a line on which the source-mapping step throws makes
the whole replacement fail with the unmappable frame message, whichever
line fails first. -/
theorem mapTranspiledLines_error_of_mem (opf : Nat → Nat → Option (String × Nat × Nat))
    (off : Nat) (stack : List Line) (l : Line)
    (hmem : l ∈ stack)
    (hl : mapTranspiledLine opf off l = Except.error unmappableFrameMessage) :
    mapTranspiledLines opf off stack = Except.error unmappableFrameMessage := by
  induction stack with
  | nil => cases hmem
  | cons a rest ih =>
      rcases List.mem_cons.mp hmem with h | h
      · subst h
        simp [mapTranspiledLines, hl]
      · cases ha : mapTranspiledLine opf off a with
        | error e =>
            have he := mapTranspiledLine_error_msg opf off a e ha
            subst he
            simp [mapTranspiledLines, ha]
        | ok a2 =>
            simp [mapTranspiledLines, ha, ih h]

/-- The source-mapping step leaves a stack without failing transpiled
frames intact when every line maps to itself. -/
theorem mapTranspiledLines_all_ok (opf : Nat → Nat → Option (String × Nat × Nat))
    (off : Nat) (stack : List Line)
    (h : ∀ l ∈ stack, mapTranspiledLine opf off l = Except.ok l) :
    mapTranspiledLines opf off stack = Except.ok stack := by
  induction stack with
  | nil => rfl
  | cons a rest ih =>
      have ha := h a (List.mem_cons_self a rest)
      have hr := ih (fun l hl => h l (List.mem_cons_of_mem a hl))
      simp [mapTranspiledLines, ha, hr]

/-- Grouping passes over a leading line that is not part of a run. -/
theorem collapseRuns_cons_not_run (isRun : Line → Bool) (marker : LineContent)
    (l : Line) (rest : List Line) (h : isRun l = false) :
    collapseRuns isRun marker (l :: rest) = l :: collapseRuns isRun marker rest := by
  cases rest <;> simp [collapseRuns, h]

/-- Grouping replaces a maximal consecutive run of `n + 1` copies of a run
line by the single marker line keeping the run line's ending, however long
the run is. -/
theorem collapseRuns_replicate_run (isRun : Line → Bool) (marker : LineContent)
    (x y : Line) (rest : List Line)
    (hx : isRun x = true) (hy : isRun y = false) (n : Nat) :
    collapseRuns isRun marker (List.replicate (n + 1) x ++ y :: rest) =
      ⟨marker, x.ending⟩ :: collapseRuns isRun marker (y :: rest) := by
  induction n with
  | zero => simp [List.replicate, collapseRuns, hx, hy]
  | succ m ih =>
      have h2 : List.replicate (m + 1 + 1) x ++ y :: rest
          = x :: x :: (List.replicate m x ++ y :: rest) := by
        simp [List.replicate_succ]
      rw [h2]
      have h3 : x :: (List.replicate m x ++ y :: rest)
          = List.replicate (m + 1) x ++ y :: rest := by
        simp [List.replicate_succ]
      simp only [collapseRuns, hx, if_true]
      rw [h3, ih]

/-- Grouping is the identity on a stack containing no run lines. -/
theorem collapseRuns_no_run (isRun : Line → Bool) (marker : LineContent)
    (L : List Line) (h : ∀ l ∈ L, isRun l = false) :
    collapseRuns isRun marker L = L := by
  induction L with
  | nil => rfl
  | cons a rest ih =>
      rw [collapseRuns_cons_not_run isRun marker a rest (h a (List.mem_cons_self a rest)),
        ih (fun l hl => h l (List.mem_cons_of_mem a hl))]

/-- C4: for every module handle without an entry in the source-map
registry, `normaliseStack` fails with the usage error explaining the
missing source-map configuration, whatever the stack text, and produces no
normalized output. -/
theorem normaliseStack_missing_registry_entry
    (moduleDataMap : ModuleHandle → Option ModuleData) (off : Nat)
    (stack : List Line) (mh : ModuleHandle)
    (h : moduleDataMap mh = none) :
    normaliseStack moduleDataMap off stack mh = Except.error missingSourceMapMessage := by
  simp [normaliseStack, h]

/-- Witness for `normaliseStack_missing_registry_entry` on a concrete
unregistered module handle. -/
theorem normaliseStack_missing_registry_entry_witness :
    (fun _ : ModuleHandle => (none : Option ModuleData)) 0 = none ∧
    normaliseStack (fun _ => none) 1 [⟨LineContent.plain "Error: bang", "\n"⟩] 0 =
      Except.error missingSourceMapMessage :=
  ⟨rfl, normaliseStack_missing_registry_entry (fun _ => none) 1 _ 0 rfl⟩

/-- C5: if any stack line matching the transpiled-PHP frame pattern cannot
be resolved to an original source position through the stored source map,
`normaliseStack` fails with the harness error and produces no output at
all — no frame is skipped and no partial result is returned. -/
theorem normaliseStack_unmappable_frame_fatal
    (moduleDataMap : ModuleHandle → Option ModuleData) (off : Nat)
    (stack : List Line) (mh : ModuleHandle) (md : ModuleData)
    (pre : String) (gl gc : Nat) (e : String)
    (hreg : moduleDataMap mh = some md)
    (hmem : (⟨LineContent.transpiled pre gl gc, e⟩ : Line) ∈ stack)
    (hunmap : md.originalPositionFor (gl - off) gc = none) :
    normaliseStack moduleDataMap off stack mh = Except.error unmappableFrameMessage := by
  have hl : mapTranspiledLine md.originalPositionFor off ⟨LineContent.transpiled pre gl gc, e⟩
      = Except.error unmappableFrameMessage := by
    simp [mapTranspiledLine, hunmap]
  have hall := mapTranspiledLines_error_of_mem md.originalPositionFor off stack _ hmem hl
  simp [normaliseStack, hreg, hall]

/-- Witness for `normaliseStack_unmappable_frame_fatal` on a concrete stack
whose only transpiled frame has no mapping. -/
theorem normaliseStack_unmappable_frame_fatal_witness :
    (fun _ : ModuleHandle => some (ModuleData.mk (fun _ _ => none) none)) 3
        = some (ModuleData.mk (fun _ _ => none) none) ∧
    (⟨LineContent.transpiled "    at main " 10 4, "\n"⟩ : Line) ∈
      [(⟨LineContent.transpiled "    at main " 10 4, "\n"⟩ : Line)] ∧
    (ModuleData.mk (fun _ _ => none) none).originalPositionFor (10 - 2) 4 = none ∧
    normaliseStack (fun _ => some (ModuleData.mk (fun _ _ => none) none)) 2
        [⟨LineContent.transpiled "    at main " 10 4, "\n"⟩] 3 =
      Except.error unmappableFrameMessage :=
  ⟨rfl, List.mem_singleton.mpr rfl, rfl,
    normaliseStack_unmappable_frame_fatal _ 2 _ 3 _ "    at main " 10 4 "\n" rfl
      (List.mem_singleton.mpr rfl) rfl⟩

/-- C6: normalizing a stack containing a consecutive run of `n ≥ 1`
test-runner-internal (Mocha) frames replaces the whole run by exactly one
placeholder marker line, keeping the run's line-ending characters; the
output is the same single marker line whatever `n` is (the right-hand side
does not mention `n`). -/
theorem normaliseStack_collapses_mocha_run
    (moduleDataMap : ModuleHandle → Option ModuleData) (off : Nat)
    (mh : ModuleHandle) (md : ModuleData)
    (a b pre mid ea e eb : String) (n : Nat)
    (hreg : moduleDataMap mh = some md) (hn : 1 ≤ n) :
    normaliseStack moduleDataMap off
        (⟨LineContent.plain a, ea⟩ ::
          (List.replicate n ⟨LineContent.mochaFrame pre mid, e⟩ ++
            [⟨LineContent.plain b, eb⟩])) mh
      = Except.ok
          [⟨LineContent.plain a, ea⟩, ⟨LineContent.plain mochaMarkerText, e⟩,
            ⟨LineContent.plain b, eb⟩] := by
  obtain ⟨m, rfl⟩ : ∃ m, n = m + 1 := ⟨n - 1, by omega⟩
  have hmap : mapTranspiledLines md.originalPositionFor off
      (⟨LineContent.plain a, ea⟩ ::
        (List.replicate (m + 1) ⟨LineContent.mochaFrame pre mid, e⟩ ++
          [⟨LineContent.plain b, eb⟩]))
      = Except.ok
          (⟨LineContent.plain a, ea⟩ ::
            (List.replicate (m + 1) ⟨LineContent.mochaFrame pre mid, e⟩ ++
              [⟨LineContent.plain b, eb⟩])) := by
    refine mapTranspiledLines_all_ok _ _ _ ?_
    intro l hl
    rcases List.mem_cons.mp hl with rfl | hl
    · rfl
    rcases List.mem_append.mp hl with hl | hl
    · rw [List.eq_of_mem_replicate hl]
      rfl
    · rw [List.mem_singleton.mp hl]
      rfl
  have hrewrite :
      (⟨LineContent.plain a, ea⟩ ::
        (List.replicate (m + 1) ⟨LineContent.mochaFrame pre mid, e⟩ ++
          [⟨LineContent.plain b, eb⟩])).map normaliseMochaLine
      = ⟨LineContent.plain a, ea⟩ ::
          (List.replicate (m + 1) ⟨LineContent.mochaNormalised pre mid, e⟩ ++
            [⟨LineContent.plain b, eb⟩]) := by
    simp [normaliseMochaLine]
  have hcollapse :
      collapseRuns isMochaNormalised (LineContent.plain mochaMarkerText)
        (⟨LineContent.plain a, ea⟩ ::
          (List.replicate (m + 1) ⟨LineContent.mochaNormalised pre mid, e⟩ ++
            [⟨LineContent.plain b, eb⟩]))
      = [⟨LineContent.plain a, ea⟩, ⟨LineContent.plain mochaMarkerText, e⟩,
          ⟨LineContent.plain b, eb⟩] := by
    rw [collapseRuns_cons_not_run _ _ _ _ rfl,
      collapseRuns_replicate_run _ _ _ _ _ rfl rfl m,
      collapseRuns_cons_not_run _ _ _ _ rfl]
    rfl
  simp only [normaliseStack, hreg, hmap, hrewrite, hcollapse]
  rfl

/-- Witness for `normaliseStack_collapses_mocha_run` with a concrete run of
five Mocha frames. -/
theorem normaliseStack_collapses_mocha_run_witness :
    (fun _ : ModuleHandle => some (ModuleData.mk (fun _ _ => none) none)) 0
        = some (ModuleData.mk (fun _ _ => none) none) ∧
    1 ≤ 5 ∧
    normaliseStack (fun _ => some (ModuleData.mk (fun _ _ => none) none)) 1
        (⟨LineContent.plain "Error: bang", "\n"⟩ ::
          (List.replicate 5 ⟨LineContent.mochaFrame "    at Runner.run (" "/lib/runner.js:", "\n"⟩ ++
            [⟨LineContent.plain "    at processImmediate", ""⟩])) 0
      = Except.ok
          [⟨LineContent.plain "Error: bang", "\n"⟩,
            ⟨LineContent.plain mochaMarkerText, "\n"⟩,
            ⟨LineContent.plain "    at processImmediate", ""⟩] :=
  ⟨rfl, by decide,
    normaliseStack_collapses_mocha_run _ 1 0 _ "Error: bang" "    at processImmediate"
      "    at Runner.run (" "/lib/runner.js:" "\n" "\n" "" 5 rfl (by decide)⟩

/-- Counterexample to C7 as stated: constructing the tools (source
lines 219-221) with no initialization hook, the hook flag left to its
default, and without any access to a runtime accessor or creation
operation, already advances the runtime-creation counter from 0 to 3 —
the three per-mode runtimes are constructed eagerly during construction,
before any of them is demanded, refuting the claimed laziness at this
concrete input. -/
theorem createIntegrationTools_not_lazy_counterexample :
    (createIntegrationTools none none 0).2 = 3 ∧
    (createIntegrationTools none none 0).2 ≠ 0 :=
  ⟨rfl, by decide⟩

/-- C7 amended: the tools constructor eagerly creates exactly one runtime
per mode (in source order async, psync, sync) at construction time; the
stored per-mode accessors are fixed properties, so every access returns
that same instance; the three are pairwise distinct; and the explicit
fresh-runtime creation operation returns a distinct instance on every call
(calls at different counter states yield different runtimes, and each call
strictly advances the counter). -/
theorem createIntegrationTools_eager_memoised_distinct (s u v : Nat) (huv : u ≠ v) :
    (createIntegrationTools none none s).1.asyncRuntime = (Mode.async, s) ∧
    (createIntegrationTools none none s).1.psyncRuntime = (Mode.psync, s + 1) ∧
    (createIntegrationTools none none s).1.syncRuntime = (Mode.sync, s + 2) ∧
    (createIntegrationTools none none s).2 = s + 3 ∧
    (createIntegrationTools none none s).1.asyncRuntime ≠
      (createIntegrationTools none none s).1.psyncRuntime ∧
    (createIntegrationTools none none s).1.asyncRuntime ≠
      (createIntegrationTools none none s).1.syncRuntime ∧
    (createIntegrationTools none none s).1.psyncRuntime ≠
      (createIntegrationTools none none s).1.syncRuntime ∧
    ((createIntegrationTools none none s).1.createAsyncRuntime u).1 ≠
      ((createIntegrationTools none none s).1.createAsyncRuntime v).1 ∧
    u < ((createIntegrationTools none none s).1.createAsyncRuntime u).2 := by
  refine ⟨rfl, rfl, rfl, rfl, ?_, ?_, ?_, ?_, Nat.lt_succ_self u⟩ <;>
    simp [createIntegrationTools, createRuntime, runtimeFactoryCreate, huv]

/-- Witness for `createIntegrationTools_eager_memoised_distinct` at
concrete counter states. -/
theorem createIntegrationTools_eager_memoised_distinct_witness :
    (0 : Nat) ≠ 1 ∧
    ((createIntegrationTools none none 0).1.asyncRuntime = (Mode.async, 0) ∧
    (createIntegrationTools none none 0).1.psyncRuntime = (Mode.psync, 0 + 1) ∧
    (createIntegrationTools none none 0).1.syncRuntime = (Mode.sync, 0 + 2) ∧
    (createIntegrationTools none none 0).2 = 0 + 3 ∧
    (createIntegrationTools none none 0).1.asyncRuntime ≠
      (createIntegrationTools none none 0).1.psyncRuntime ∧
    (createIntegrationTools none none 0).1.asyncRuntime ≠
      (createIntegrationTools none none 0).1.syncRuntime ∧
    (createIntegrationTools none none 0).1.psyncRuntime ≠
      (createIntegrationTools none none 0).1.syncRuntime ∧
    ((createIntegrationTools none none 0).1.createAsyncRuntime 0).1 ≠
      ((createIntegrationTools none none 0).1.createAsyncRuntime 1).1 ∧
    0 < ((createIntegrationTools none none 0).1.createAsyncRuntime 0).2) :=
  ⟨by decide, createIntegrationTools_eager_memoised_distinct 0 0 1 (by decide)⟩

/-- C8: the `forceOpcodesAsync` parameter defaults to true: with the third
argument omitted (embedded as `none`), the forced-async opcode hook is
installed during construction on the stored async-mode runtime, and with
it passed as `false` the hook is not installed. -/
theorem createIntegrationTools_forceAsync_default (initRuntime : Option (Runtime → Runtime))
    (s : Nat) :
    (createIntegrationTools initRuntime none s).1.hookInstalledOn =
      some ((createIntegrationTools initRuntime none s).1.asyncRuntime) ∧
    (createIntegrationTools initRuntime (some false) s).1.hookInstalledOn = none := by
  constructor <;> simp [createIntegrationTools]
